import Mathlib

/-!
# talos-azure-pulumi: the declaration sequence of `main`

A shallow embedding of `src/main.go`.  The program is one function, the closure handed to
`pulumi.Run`.  It reads one configuration key, makes 38 resource-declaration calls against
the Pulumi engine, exports one value and returns `nil`.

The engine and the provider SDKs are external.  They are represented by an `Engine`
parameter that gives, for a declaration call of a given kind and logical name, the pair
the constructor returns: an error or `nil`, and a pointer that is `nil` or not.
Everything else (argument construction, the loops, the slices, the error branches, the
order of the calls) is translated from the source.
-/

namespace TalosAzure

/-! ## Data model -/

/-- Output fields of resources that `main` reads. -/
inductive Field where
  | Name | ID | IpAddress | MachineSecrets | ClusterName | MachineConfig | TalosConfig
  deriving DecidableEq, Repr

/-- Resource kinds: one per SDK constructor called by `main`. -/
inductive Kind where
  | ResourceGroup | VirtualNetwork | Subnet | NetworkSecurityGroup | PublicIp
  | LoadBalancer | BackendAddressPool | Probe | Rule | NetworkInterface
  | NetworkInterfaceSecurityGroupAssociation
  | NetworkInterfaceBackendAddressPoolAssociation
  | TalosMachineSecrets | TalosClientConfiguration
  | TalosMachineConfigurationControlplane | TalosMachineConfigurationWorker
  | AvailabilitySet | VirtualMachine | TalosMachineBootstrap
  deriving DecidableEq, Repr

/-- A reference to an output of a declared resource, by logical name. -/
structure Ref where
  res : String
  field : Field
  deriving DecidableEq, Repr

/-- Pulumi input values as `main` builds them. -/
inductive Value where
  /-- The `nil` interface value (an unassigned slice element, or `nil` arguments). -/
  | null : Value
  /-- The literal `pulumi.String(s)`. -/
  | str : String → Value
  /-- The literal `pulumi.Int(n)`, or a plain integer argument of `pulumi.Sprintf`. -/
  | int : Int → Value
  /-- The literal `pulumi.Bool(b)`. -/
  | bool : Bool → Value
  /-- An output field of the registered resource with the given logical name. -/
  | out : String → Field → Value
  /-- The zero value of an output field (read from a zero-valued resource struct). -/
  | zero : Field → Value
  /-- The result of `pulumi.Sprintf(format, args...)`. -/
  | sprintf : String → List Value → Value
  /-- An array input such as `pulumi.StringArray`. -/
  | arr : List Value → Value
  /-- An argument struct, as its list of set fields in source order. -/
  | obj : List (String × Value) → Value

/-- One resource-declaration call: the constructor, the logical name and the arguments. -/
structure Decl where
  kind : Kind
  name : String
  args : Value

/-- What the SDK constructor returns for one declaration call: the Go pair
`(pointer, error)`. -/
structure Outcome where
  /-- The error: `none` is `nil`, otherwise the text of `err.Error()`. -/
  err : Option String
  /-- Whether the returned pointer is `nil`.  A pointer that is not `nil` points to the
  registered resource when the error is `nil`, and to a zero-valued struct otherwise. -/
  nilHandle : Bool

/-- The external engine: the outcome of the declaration call with the given constructor
and logical name. -/
abbrev Engine := Kind → String → Outcome

/-- The struct a resource pointer points to. -/
structure Handle where
  name : String
  registered : Bool

/-- Observable state of one run: the declaration calls made, the lines logged and the
values exported so far, each list with the most recent entry first. -/
structure World where
  decls : List Decl
  logs : List String
  exports : List (String × Value)

/-- Result of running a piece of the program: normal completion or a Go run-time panic. -/
inductive Res (α : Type) where
  | ok : α → World → Res α
  | panic : String → World → Res α

/-- The world a computation ended in. -/
def Res.world {α : Type} : Res α → World
  | .ok _ w => w
  | .panic _ w => w

/-- The value a computation returned, if it did not panic. -/
def Res.value {α : Type} : Res α → Option α
  | .ok a _ => some a
  | .panic _ _ => none

/-- Computations of the program. -/
def M (α : Type) : Type := World → Res α

/-- Sequencing: a panic stops the computation. -/
def M.bind {α β : Type} (m : M α) (f : α → M β) : M β := fun w =>
  match m w with
  | .ok a w1 => f a w1
  | .panic msg w1 => .panic msg w1

instance : Monad M where
  pure := fun a w => .ok a w
  bind := M.bind

/-- A Go run-time panic. -/
def panicWith {α : Type} (msg : String) : M α := fun w => .panic msg w

/-! ## Go and SDK primitives used by `main` -/

/-- Substitute the decimal `s` for the first `%d` of a format. -/
def fmtD : List Char → List Char → List Char
  | '%' :: 'd' :: rest, s => s ++ rest
  | c :: rest, s => c :: fmtD rest s
  | [], _ => []

/-- The call `fmt.Sprintf(format, n)` for a format with one `%d` verb. -/
def Sprintf (format : String) (n : Nat) : String :=
  ⟨fmtD format.data (toString n).data⟩

/-- The call `cfg.Require(key)`: panics when the key is not set. -/
def Require (key : String) (value : Option String) : M String :=
  match value with
  | some v => pure v
  | none => panicWith ("missing required configuration variable " ++ key)

/-- The pointer returned by a constructor, from the engine outcome. -/
def handleOf (o : Outcome) (name : String) : Option Handle :=
  if o.nilHandle then none else some ⟨name, o.err.isNone⟩

/-- A declaration call `pkg.NewKind(ctx, name, args)`: the call is recorded and the engine
decides what it returns. -/
def declare (eng : Engine) (kind : Kind) (name : String) (args : Value) :
    M (Option Handle × Option String) := fun w =>
  match w with
  | ⟨decls, logs, exports⟩ =>
    .ok (handleOf (eng kind name) name, (eng kind name).err)
      ⟨⟨kind, name, args⟩ :: decls, logs, exports⟩

/-- Reading an output through a resource pointer: `p.Name`, `p.ID()`, and so on.
A `nil` pointer panics; a zero-valued struct yields the zero output. -/
def output (p : Option Handle) (f : Field) : M Value :=
  match p with
  | none => panicWith "invalid memory address or nil pointer dereference"
  | some h => pure (if h.registered then Value.out h.name f else Value.zero f)

/-- The lines logged by the error branch after a constructor call: none when the error is
`nil`, otherwise the one line `log.Printf(format, err.Error())` prints, where the format
is `pre` followed by `%s`. -/
def logLine (err : Option String) (pre : String) : List String :=
  match err with
  | none => []
  | some msg => [pre ++ msg]

/-- The error branch after a constructor call, `if err != nil` with a single `log.Printf`
in its body: the line is logged, nothing else happens and control falls through. -/
def logIfErr (err : Option String) (pre : String) : M Unit := fun w =>
  match w with
  | ⟨decls, logs, exports⟩ => .ok () ⟨decls, logLine err pre ++ logs, exports⟩

/-- The call `make([]pulumi.StringInput, n)`. -/
def make (n : Nat) : List Value := List.replicate n Value.null

/-- Reading a slice element `xs[i]`; out of range panics. -/
def index (xs : List Value) (i : Nat) : M Value :=
  match xs.get? i with
  | some v => pure v
  | none => panicWith "index out of range"

/-- The assignment `xs[i] = v`; out of range panics. -/
def assign (xs : List Value) (i : Nat) (v : Value) : M (List Value) :=
  if i < xs.length then pure (xs.set i v) else panicWith "index out of range"

/-- The call `ctx.Export(name, v)`. -/
def Export (name : String) (v : Value) : M Unit := fun w =>
  match w with
  | ⟨decls, logs, exports⟩ => .ok () ⟨decls, logs, (name, v) :: exports⟩

/-! ## Argument structs built by `main` -/

/-- One security rule of `talos-nsg` (lines 67-110): the four rules differ in port range,
name and priority only. -/
def securityRule (port name : String) (priority : Int) : Value :=
  .obj [("Access", .str "Allow"),
        ("DestinationAddressPrefix", .str "*"),
        ("DestinationPortRange", .str port),
        ("Direction", .str "Inbound"),
        ("Name", .str name),
        ("Priority", .int priority),
        ("Protocol", .str "Tcp"),
        ("SourceAddressPrefix", .str "*"),
        ("SourcePortRange", .str "*")]

/-! ## The program -/

/-- The closure passed to `pulumi.Run` in `main` (lines 17-411).  `imageId` is what the
configuration holds for the key `imageId`.  The returned value is the Go `error`
(`none` is `nil`). -/
def main (eng : Engine) (imageId : Option String) : M (Option String) := do
  -- Get some configuration values
  let talosImageId ← Require "imageId" imageId

  -- Create a resource group for the Talos Linux resources
  let (talosRg, err) ← declare eng .ResourceGroup "talos-rg"
    (.obj [("Name", .str "talos-rg")])
  logIfErr err "error creating resource group: "

  -- Create a virtual network
  let rgName ← output talosRg .Name
  let (talosVnet, err) ← declare eng .VirtualNetwork "talos-vnet"
    (.obj [("AddressSpaces", .arr [.str "10.0.0.0/16"]),
           ("Name", .str "talos-vnet"),
           ("ResourceGroupName", rgName)])
  logIfErr err "error creating virtual network: "

  -- Create three subnets
  let mut talosSubnetIds := make 3
  for i in List.range 3 do
    let name := Sprintf "subnet-0%d" (i + 1)
    let rgName ← output talosRg .Name
    let vnetName ← output talosVnet .Name
    let (subnet, err) ← declare eng .Subnet name
      (.obj [("AddressPrefixes", .arr [.sprintf "10.0.%d.0/24" [.int (i + 1)]]),
             ("ResourceGroupName", rgName),
             ("VirtualNetworkName", vnetName)])
    logIfErr err "error creating subnet: "
    let subnetId ← output subnet .ID
    talosSubnetIds ← assign talosSubnetIds i subnetId

  -- Create a network security group and associated rules
  let rgName ← output talosRg .Name
  let (talosNsg, err) ← declare eng .NetworkSecurityGroup "talos-nsg"
    (.obj [("Name", .str "talos-nsg"),
           ("ResourceGroupName", rgName),
           ("SecurityRules", .arr [securityRule "50000" "apid" 1001,
                                   securityRule "50001" "trustd" 1002,
                                   securityRule "2379-2380" "etcd" 1003,
                                   securityRule "6443" "k8s" 1004])])
  logIfErr err "error creating network security group: "

  -- Create a public IP address for the load balancer
  let rgName ← output talosRg .Name
  let (talosLbPubIp, err) ← declare eng .PublicIp "talos-lb-pub-ip"
    (.obj [("AllocationMethod", .str "Static"),
           ("Name", .str "talos-lb-pub-ip"),
           ("ResourceGroupName", rgName),
           ("Sku", .str "Standard")])
  logIfErr err "error allocating public IP: "

  -- Create a load balancer (only used for K8s API traffic)
  let lbPubIpId ← output talosLbPubIp .ID
  let rgName ← output talosRg .Name
  let (talosLb, err) ← declare eng .LoadBalancer "talos-lb"
    (.obj [("FrontendIpConfigurations",
              .arr [.obj [("Name", .str "talos-fe-ip"),
                          ("PublicIpAddressId", lbPubIpId)]]),
           ("Name", .str "talos-lb"),
           ("ResourceGroupName", rgName),
           ("Sku", .str "Standard")])
  logIfErr err "error creating load balancer: "

  -- Create a backend address pool
  let lbId ← output talosLb .ID
  let (talosBePool, err) ← declare eng .BackendAddressPool "talos-be-pool"
    (.obj [("LoadbalancerId", lbId),
           ("Name", .str "talos-be-pool")])
  logIfErr err "error creating backend address pool: "

  -- Create a health probe for the load balancer
  let lbId ← output talosLb .ID
  let (_, err) ← declare eng .Probe "talos-lb-probe"
    (.obj [("LoadbalancerId", lbId),
           ("Port", .int 6443),
           ("Name", .str "talos-lb-probe"),
           ("Protocol", .str "Tcp")])
  logIfErr err "error creating load balancer probe: "

  -- Create a load balancing rule for K8s API traffic
  let lbId ← output talosLb .ID
  let bePoolId ← output talosBePool .ID
  let (_, err) ← declare eng .Rule "talos-lb-rule"
    (.obj [("DisableOutboundSnat", .bool true),
           ("EnableTcpReset", .bool true),
           ("LoadbalancerId", lbId),
           ("Protocol", .str "Tcp"),
           ("FrontendPort", .int 6443),
           ("BackendPort", .int 6443),
           ("FrontendIpConfigurationName", .str "talos-fe-ip"),
           ("BackendAddressPoolIds", .arr [bePoolId])])
  logIfErr err "error creating load balancer rule: "

  -- Create public IPs and network interfaces for control plane machines
  let mut cpPublicIps := make 3
  let mut cpPublicIpIds := make 3
  let mut cpIntfIds := make 3
  for i in List.range 3 do
    -- Create the public IP address
    let name := Sprintf "cp-pub-ip-0%d" (i + 1)
    let rgName ← output talosRg .Name
    let (publicIp, err) ← declare eng .PublicIp name
      (.obj [("AllocationMethod", .str "Static"),
             ("Name", .sprintf "cp-pub-ip-0%d" [.int (i + 1)]),
             ("ResourceGroupName", rgName),
             ("Sku", .str "Standard")])
    logIfErr err "error allocating public IP: "
    let ipAddress ← output publicIp .IpAddress
    cpPublicIps ← assign cpPublicIps i ipAddress
    let publicIpId ← output publicIp .ID
    cpPublicIpIds ← assign cpPublicIpIds i publicIpId

    -- Create the network interface
    let name := Sprintf "cp-ni-0%d" (i + 1)
    let subnetId ← index talosSubnetIds i
    let publicIpId ← index cpPublicIpIds i
    let rgName ← output talosRg .Name
    let (ni, err) ← declare eng .NetworkInterface name
      (.obj [("IpConfigurations",
                .arr [.obj [("Name", .sprintf "cp-ni-0%d" [.int (i + 1)]),
                            ("SubnetId", subnetId),
                            ("PrivateIpAddressAllocation", .str "Dynamic"),
                            ("PublicIpAddressId", publicIpId)]]),
             ("ResourceGroupName", rgName)])
    logIfErr err "error creating network interface: "
    let niId ← output ni .ID
    cpIntfIds ← assign cpIntfIds i niId

    -- Associate the NI to the NSG
    let name := Sprintf "ni-nsg-0%d" (i + 1)
    let niId ← output ni .ID
    let nsgId ← output talosNsg .ID
    let (_, err) ← declare eng .NetworkInterfaceSecurityGroupAssociation name
      (.obj [("NetworkInterfaceId", niId),
             ("NetworkSecurityGroupId", nsgId)])
    logIfErr err "error associating interface with security group: "

    -- Add the NI to the backend address pool
    let name := Sprintf "ni-bepool-0%d" (i + 1)
    let bePoolId ← output talosBePool .ID
    let niId ← output ni .ID
    let (_, err) ← declare eng .NetworkInterfaceBackendAddressPoolAssociation name
      (.obj [("BackendAddressPoolId", bePoolId),
             ("IpConfigurationName", .sprintf "cp-ni-0%d" [.int (i + 1)]),
             ("NetworkInterfaceId", niId)])
    logIfErr err "error associating interface with backend address pool: "

  -- Start building the Talos configuration by generating new machine secrets
  let (talosMs, err) ← declare eng .TalosMachineSecrets "talos-ms" .null
  logIfErr err "error creating machine secrets: "

  -- Create the talosctl configuration file
  let machineSecrets ← output talosMs .MachineSecrets
  let (talosClientCfg, err) ← declare eng .TalosClientConfiguration "talos-client-cfg"
    (.obj [("ClusterName", .str "talos-cluster"),
           ("MachineSecrets", machineSecrets),
           ("Endpoints", .arr cpPublicIps),
           ("Nodes", .arr cpPublicIps)])
  logIfErr err "error creating client configuration: "

  -- Create the machine configuration for the control plane VMs
  let clusterName ← output talosClientCfg .ClusterName
  let lbIpAddress ← output talosLbPubIp .IpAddress
  let machineSecrets ← output talosMs .MachineSecrets
  let (talosCpMachineCfg, err) ← declare eng .TalosMachineConfigurationControlplane
    "talos-cp-machine-cfg"
    (.obj [("ClusterName", clusterName),
           ("ClusterEndpoint", .sprintf "https://%v:6443" [lbIpAddress]),
           ("MachineSecrets", machineSecrets),
           ("DocsEnabled", .bool false),
           ("ExamplesEnabled", .bool false)])
  logIfErr err "error creating machine configuration: "

  -- Create the machine configuration for the worker VMs
  let clusterName ← output talosClientCfg .ClusterName
  let lbIpAddress ← output talosLbPubIp .IpAddress
  let machineSecrets ← output talosMs .MachineSecrets
  let (talosWkrMachineCfg, err) ← declare eng .TalosMachineConfigurationWorker
    "talos-wkr-machine-cfg"
    (.obj [("ClusterName", clusterName),
           ("ClusterEndpoint", .sprintf "https://%v:6443" [lbIpAddress]),
           ("MachineSecrets", machineSecrets),
           ("DocsEnabled", .bool false),
           ("ExamplesEnabled", .bool false)])
  logIfErr err "error creating machine configuration: "

  -- Create an availability set for the control plane
  let rgName ← output talosRg .Name
  let (talosCpAvailSet, err) ← declare eng .AvailabilitySet "talos-cp-avail-set"
    (.obj [("ResourceGroupName", rgName)])
  logIfErr err "error creating availability set: "

  -- Launch the VMs for the control plane
  let mut cpVmIds := make 3
  for i in List.range 3 do
    let name := Sprintf "talos-cp-0%d" (i + 1)
    let availSetId ← output talosCpAvailSet .ID
    let intfId ← index cpIntfIds i
    let machineConfig ← output talosCpMachineCfg .MachineConfig
    let rgName ← output talosRg .Name
    let (vm, err) ← declare eng .VirtualMachine name
      (.obj [("AvailabilitySetId", availSetId),
             ("DeleteOsDiskOnTermination", .bool true),
             ("NetworkInterfaceIds", .arr [intfId]),
             ("OsProfile",
                .obj [("ComputerName", .sprintf "talos-cp-0%d" [.int (i + 1)]),
                      ("AdminUsername", .str "talosadmin"),
                      ("AdminPassword", .str "Password1234!"),
                      ("CustomData", machineConfig)]),
             ("OsProfileLinuxConfig",
                .obj [("DisablePasswordAuthentication", .bool false)]),
             ("ResourceGroupName", rgName),
             ("StorageImageReference", .obj [("Id", .str talosImageId)]),
             ("StorageOsDisk",
                .obj [("Name", .sprintf "talos-cp-0%d-disk" [.int (i + 1)]),
                      ("Caching", .str "ReadWrite"),
                      ("CreateOption", .str "FromImage"),
                      ("ManagedDiskType", .str "Standard_LRS"),
                      ("DiskSizeGb", .int 30)]),
             ("VmSize", .str "Standard_DS1_v2")])
    logIfErr err "error creating virtual machine: "
    let vmId ← output vm .ID
    cpVmIds ← assign cpVmIds i vmId

  -- Create network interfaces for the worker node VMs
  let mut wkrIntfIds := make 3
  for i in List.range 3 do
    -- Create the network interface
    let name := Sprintf "wkr-ni-0%d" (i + 1)
    let subnetId ← index talosSubnetIds i
    let rgName ← output talosRg .Name
    let (ni, err) ← declare eng .NetworkInterface name
      (.obj [("IpConfigurations",
                .arr [.obj [("Name", .sprintf "wkr-ni-0%d" [.int (i + 1)]),
                            ("SubnetId", subnetId),
                            ("PrivateIpAddressAllocation", .str "Dynamic")]]),
             ("ResourceGroupName", rgName)])
    logIfErr err "error creating network interface: "
    let niId ← output ni .ID
    wkrIntfIds ← assign wkrIntfIds i niId

  -- Launch the VMs for the worker nodes
  let mut wkrVmIds := make 3
  for i in List.range 3 do
    let name := Sprintf "talos-wkr-0%d" (i + 1)
    let intfId ← index wkrIntfIds i
    let machineConfig ← output talosWkrMachineCfg .MachineConfig
    let rgName ← output talosRg .Name
    let (vm, err) ← declare eng .VirtualMachine name
      (.obj [("DeleteOsDiskOnTermination", .bool true),
             ("NetworkInterfaceIds", .arr [intfId]),
             ("OsProfile",
                .obj [("ComputerName", .sprintf "talos-wkr-0%d" [.int (i + 1)]),
                      ("AdminUsername", .str "talosadmin"),
                      ("AdminPassword", .str "Password1234!"),
                      ("CustomData", machineConfig)]),
             ("OsProfileLinuxConfig",
                .obj [("DisablePasswordAuthentication", .bool false)]),
             ("ResourceGroupName", rgName),
             ("StorageImageReference", .obj [("Id", .str talosImageId)]),
             ("StorageOsDisk",
                .obj [("Name", .sprintf "talos-wkr-0%d-disk" [.int (i + 1)]),
                      ("Caching", .str "ReadWrite"),
                      ("CreateOption", .str "FromImage"),
                      ("ManagedDiskType", .str "Standard_LRS"),
                      ("DiskSizeGb", .int 30)]),
             ("VmSize", .str "Standard_DS1_v2")])
    logIfErr err "error creating virtual machine: "
    let vmId ← output vm .ID
    wkrVmIds ← assign wkrVmIds i vmId

  -- Bootstrap the first control plane node
  let talosConfig ← output talosClientCfg .TalosConfig
  let endpoint ← index cpPublicIps 0
  let node ← index cpPublicIps 0
  let (_, err) ← declare eng .TalosMachineBootstrap "bootstrap"
    (.obj [("TalosConfig", talosConfig),
           ("Endpoint", endpoint),
           ("Node", node)])
  logIfErr err "error encountered during bootstrap: "

  -- Export the Talos client configuration
  let talosConfig ← output talosClientCfg .TalosConfig
  Export "talosctlCfg" talosConfig

  return none

/-- The world before the program starts. -/
def World.init : World := ⟨[], [], []⟩

/-- One run of the program from the empty world. -/
def run (eng : Engine) (imageId : Option String) : Res (Option String) :=
  main eng imageId World.init

/-- The engine under which every declaration call succeeds. -/
def allOk : Engine := fun _ _ => ⟨none, false⟩

/-- The engine under which the declaration calls fail as `errs` says (`errs name` is the
error of the call with that logical name, if any), every constructor still returning a
pointer that is not `nil`, except that the calls named in `nils` return a `nil` pointer
when `nilAt` says so. -/
def engineOf (errs : String → Option String) (nils : List String) (nilAt : String → Bool) :
    Engine :=
  fun _ name => ⟨errs name, decide (name ∈ nils) && nilAt name⟩

/-- The engine under which only the call named `failing` fails, with the given message and
pointer. -/
def failAt (failing : String) (msg : String) (nilHandle : Bool) : Engine :=
  fun _ name => if name = failing then ⟨some msg, nilHandle⟩ else ⟨none, false⟩

/-- The calls whose returned pointer `main` discards (`_, err = ...`). -/
def discarded : List String :=
  ["talos-lb-probe", "talos-lb-rule", "ni-nsg-01", "ni-nsg-02", "ni-nsg-03",
   "ni-bepool-01", "ni-bepool-02", "ni-bepool-03", "bootstrap"]

/-- The declaration calls made by a run, in order. -/
def declsOf (eng : Engine) (imageId : Option String) : List Decl :=
  (run eng imageId).world.decls.reverse

/-- The logical names passed to the declaration calls of a run, in order. -/
def namesOf (eng : Engine) (imageId : Option String) : List String :=
  (declsOf eng imageId).map Decl.name

/-! ## Reading the declarations -/

mutual
/-- The resource outputs a value refers to. -/
def refs : Value → List Ref
  | .out res field => [⟨res, field⟩]
  | .sprintf _ args => refsList args
  | .arr items => refsList items
  | .obj fields => refsFields fields
  | _ => []
/-- The resource outputs a list of values refers to. -/
def refsList : List Value → List Ref
  | [] => []
  | v :: vs => refs v ++ refsList vs
/-- The resource outputs the fields of an argument struct refer to. -/
def refsFields : List (String × Value) → List Ref
  | [] => []
  | (_, v) :: fs => refs v ++ refsFields fs
end

/-- The field `key` of an argument struct. -/
def Value.field? (v : Value) (key : String) : Option Value :=
  match v with
  | .obj fields => (fields.find? fun kv => kv.1 == key).map Prod.snd
  | _ => none

/-- The value reached from `v` through the struct fields `path`. -/
def Value.path? (v : Value) : List String → Option Value
  | [] => some v
  | key :: rest =>
    match v.field? key with
    | some u => u.path? rest
    | none => none

/-- The declaration with logical name `name`. -/
def findDecl (ds : List Decl) (name : String) : Option Decl :=
  ds.find? fun d => d.name == name

/-- The input at `path` of the declaration named `name`. -/
def inputOf (ds : List Decl) (name : String) (path : List String) : Option Value :=
  match findDecl ds name with
  | some d => d.args.path? path
  | none => none

/-- What the dependency graph keeps of a declaration: its name, its kind and the resource
outputs its inputs refer to. -/
structure Node where
  name : String
  kind : Kind
  refs : List Ref
  deriving DecidableEq

/-- The dependency graph of a sequence of declarations, in declaration order. -/
def graphOf (ds : List Decl) : List Node :=
  ds.map fun d => ⟨d.name, d.kind, refs d.args⟩

/-- The kind of the declaration named `name`. -/
def kindOf (g : List Node) (name : String) : Option Kind :=
  (g.find? fun n => n.name == name).map Node.kind

/-- The logical names of the resources whose outputs occur in the inputs of the
declaration named `name`. -/
def referencedBy (g : List Node) (name : String) : List String :=
  match g.find? fun n => n.name == name with
  | some n => n.refs.map Ref.res
  | none => []

/-- The network interfaces attached to the machine named `m`: the resources of kind
`NetworkInterface` its inputs refer to. -/
def nicsOf (g : List Node) (m : String) : List String :=
  (referencedBy g m).filter fun r => kindOf g r == some Kind.NetworkInterface

/-- Resource `r` is wired to machine `m`: it is one of the network interfaces of `m`, or
the inputs of one of these interfaces refer to it. -/
def wiredTo (g : List Node) (r m : String) : Prop :=
  r ∈ nicsOf g m ∨ ∃ n ∈ nicsOf g m, r ∈ referencedBy g n

instance (g : List Node) (r m : String) : Decidable (wiredTo g r m) := by
  unfold wiredTo
  exact inferInstance

/-- Position `j` is a dependency of position `k`: the inputs of the declaration at
position `k` contain an output of the resource declared at position `j`. -/
def dependsOn (ds : List Decl) (k j : Nat) : Prop :=
  ∃ dk dj, ds[k]? = some dk ∧ ds[j]? = some dj ∧ dj.name ∈ (refs dk.args).map Ref.res

/-! ## Comparing inputs -/

mutual
/-- Structural equality test on values. -/
def Value.beq : Value → Value → Bool
  | .null, .null => true
  | .str a, .str b => decide (a = b)
  | .int a, .int b => decide (a = b)
  | .bool a, .bool b => decide (a = b)
  | .out r f, .out s g => decide (r = s) && decide (f = g)
  | .zero f, .zero g => decide (f = g)
  | .sprintf f xs, .sprintf g ys => decide (f = g) && Value.beqList xs ys
  | .arr xs, .arr ys => Value.beqList xs ys
  | .obj fs, .obj gs => Value.beqFields fs gs
  | _, _ => false
/-- Structural equality test on lists of values. -/
def Value.beqList : List Value → List Value → Bool
  | [], [] => true
  | x :: xs, y :: ys => Value.beq x y && Value.beqList xs ys
  | _, _ => false
/-- Structural equality test on the fields of argument structs. -/
def Value.beqFields : List (String × Value) → List (String × Value) → Bool
  | [], [] => true
  | (k, x) :: xs, (l, y) :: ys => decide (k = l) && Value.beq x y && Value.beqFields xs ys
  | _, _ => false
end

/-- Equality test on declaration calls. -/
def Decl.beq (d e : Decl) : Bool :=
  decide (d.kind = e.kind) && decide (d.name = e.name) && Value.beq d.args e.args

/-- Equality test on sequences of declaration calls. -/
def beqDecls : List Decl → List Decl → Bool
  | [], [] => true
  | d :: ds, e :: es => Decl.beq d e && beqDecls ds es
  | _, _ => false

/-- Replace the field `key` of an argument struct by `u` (first occurrence). -/
def setField (key : String) (u : Value) : List (String × Value) → List (String × Value)
  | [] => []
  | (k, v) :: rest => if k = key then (k, u) :: rest else (k, v) :: setField key u rest

/-- The inputs of a virtual machine with `StorageImageReference.Id` blanked out. -/
def blankImage (args : Value) : Value :=
  match args with
  | .obj fields =>
    .obj (setField "StorageImageReference" (.obj [("Id", .null)]) fields)
  | v => v

/-- A declaration call with the image reference of a virtual machine blanked out; every
other declaration is unchanged. -/
def Decl.withoutImage (d : Decl) : Decl :=
  if d.kind = .VirtualMachine then ⟨d.kind, d.name, blankImage d.args⟩ else d

/-! ## Names listed by the specification -/

/-- The logical names with a fixed spelling. -/
def fixedNames : List String :=
  ["talos-rg", "talos-vnet", "talos-nsg", "talos-lb-pub-ip", "talos-lb", "talos-be-pool",
   "talos-lb-probe", "talos-lb-rule", "talos-ms", "talos-client-cfg",
   "talos-cp-machine-cfg", "talos-wkr-machine-cfg", "talos-cp-avail-set", "bootstrap"]

/-- The logical names formed with the index `i`. -/
def indexedNames (i : Nat) : List String :=
  [Sprintf "subnet-0%d" i, Sprintf "cp-pub-ip-0%d" i, Sprintf "cp-ni-0%d" i,
   Sprintf "ni-nsg-0%d" i, Sprintf "ni-bepool-0%d" i, Sprintf "talos-cp-0%d" i,
   Sprintf "wkr-ni-0%d" i, Sprintf "talos-wkr-0%d" i]

/-- The 38 names as the specification lists them: the fixed ones, then the indexed ones
for `i` in 1..3. -/
def specNames : List String :=
  fixedNames ++ (indexedNames 1 ++ indexedNames 2 ++ indexedNames 3)


/-! ## Soundness of the equality tests -/

mutual
theorem Value.eq_of_beq : ∀ (a b : Value), Value.beq a b = true → a = b
  | .null, b, h => by cases b <;> simp_all [Value.beq]
  | .str a, b, h => by cases b <;> simp_all [Value.beq]
  | .int a, b, h => by cases b <;> simp_all [Value.beq]
  | .bool a, b, h => by cases b <;> simp_all [Value.beq]
  | .out r f, b, h => by cases b <;> simp_all [Value.beq]
  | .zero f, b, h => by cases b <;> simp_all [Value.beq]
  | .sprintf f xs, b, h => by
    cases b <;> simp [Value.beq] at h
    rename_i g ys
    rw [h.1, Value.eq_of_beqList xs ys h.2]
  | .arr xs, b, h => by
    cases b <;> simp [Value.beq] at h
    rename_i ys
    rw [Value.eq_of_beqList xs ys h]
  | .obj fs, b, h => by
    cases b <;> simp [Value.beq] at h
    rename_i gs
    rw [Value.eq_of_beqFields fs gs h]
theorem Value.eq_of_beqList : ∀ (xs ys : List Value), Value.beqList xs ys = true → xs = ys
  | [], ys, h => by cases ys <;> simp_all [Value.beqList]
  | x :: xs, ys, h => by
    cases ys with
    | nil => simp [Value.beqList] at h
    | cons y ys =>
      simp [Value.beqList] at h
      rw [Value.eq_of_beq x y h.1, Value.eq_of_beqList xs ys h.2]
theorem Value.eq_of_beqFields : ∀ (xs ys : List (String × Value)),
    Value.beqFields xs ys = true → xs = ys
  | [], ys, h => by cases ys <;> simp_all [Value.beqFields]
  | (k, x) :: xs, ys, h => by
    cases ys with
    | nil => simp [Value.beqFields] at h
    | cons y ys =>
      obtain ⟨l, y⟩ := y
      simp [Value.beqFields] at h
      rw [h.1.1, Value.eq_of_beq x y h.1.2, Value.eq_of_beqFields xs ys h.2]
end

theorem decl_eq_of_beq (d e : Decl) (h : Decl.beq d e = true) : d = e := by
  obtain ⟨k, n, a⟩ := d
  obtain ⟨l, m, b⟩ := e
  simp [Decl.beq] at h
  rw [h.1.1, h.1.2, Value.eq_of_beq a b h.2]

theorem eq_of_beqDecls : ∀ (ds es : List Decl), beqDecls ds es = true → ds = es
  | [], es, h => by cases es <;> simp_all [beqDecls]
  | d :: ds, es, h => by
    cases es with
    | nil => simp [beqDecls] at h
    | cons e es =>
      simp [beqDecls] at h
      rw [decl_eq_of_beq d e h.1, eq_of_beqDecls ds es h.2]

/-! ## The successful run -/

/-- The names declared by a successful run, whatever the image. -/
theorem names_allOk (img : String) :
    namesOf allOk (some img) =
      ["talos-rg", "talos-vnet", "subnet-01", "subnet-02", "subnet-03", "talos-nsg",
       "talos-lb-pub-ip", "talos-lb", "talos-be-pool", "talos-lb-probe", "talos-lb-rule",
       "cp-pub-ip-01", "cp-ni-01", "ni-nsg-01", "ni-bepool-01",
       "cp-pub-ip-02", "cp-ni-02", "ni-nsg-02", "ni-bepool-02",
       "cp-pub-ip-03", "cp-ni-03", "ni-nsg-03", "ni-bepool-03",
       "talos-ms", "talos-client-cfg", "talos-cp-machine-cfg", "talos-wkr-machine-cfg",
       "talos-cp-avail-set", "talos-cp-01", "talos-cp-02", "talos-cp-03",
       "wkr-ni-01", "wkr-ni-02", "wkr-ni-03",
       "talos-wkr-01", "talos-wkr-02", "talos-wkr-03", "bootstrap"] :=
  of_decide_eq_true rfl

/-- The dependency graph of a successful run does not depend on the image. -/
theorem graph_allOk (img : String) :
    graphOf (declsOf allOk (some img)) = graphOf (declsOf allOk (some "")) :=
  of_decide_eq_true rfl

/-- Apart from the image reference of the virtual machines, the declarations of a
successful run do not depend on the image. -/
theorem withoutImage_allOk (img : String) :
    (declsOf allOk (some img)).map Decl.withoutImage =
      (declsOf allOk (some "")).map Decl.withoutImage :=
  eq_of_beqDecls _ _ rfl


/-- C5: the bootstrap resource targets the first control plane node.  Its Endpoint and its
Node are the IpAddress output of public IP cp-pub-ip-01, which is the public IP of the
single IP configuration of network interface cp-ni-01, which is the only network interface
of virtual machine talos-cp-01; its TalosConfig is the TalosConfig output of
talos-client-cfg. -/
theorem bootstrap_targets_first_control_plane (img : String) :
    inputOf (declsOf allOk (some img)) "bootstrap" ["Endpoint"] =
      some (.out "cp-pub-ip-01" .IpAddress) ∧
    inputOf (declsOf allOk (some img)) "bootstrap" ["Node"] =
      some (.out "cp-pub-ip-01" .IpAddress) ∧
    inputOf (declsOf allOk (some img)) "bootstrap" ["TalosConfig"] =
      some (.out "talos-client-cfg" .TalosConfig) ∧
    inputOf (declsOf allOk (some img)) "cp-ni-01" ["IpConfigurations"] =
      some (.arr [.obj [("Name", .sprintf "cp-ni-0%d" [.int 1]),
                        ("SubnetId", .out "subnet-01" .ID),
                        ("PrivateIpAddressAllocation", .str "Dynamic"),
                        ("PublicIpAddressId", .out "cp-pub-ip-01" .ID)]]) ∧
    inputOf (declsOf allOk (some img)) "talos-cp-01" ["NetworkInterfaceIds"] =
      some (.arr [.out "cp-ni-01" .ID]) ∧
    kindOf (graphOf (declsOf allOk (some img))) "bootstrap" =
      some Kind.TalosMachineBootstrap ∧
    kindOf (graphOf (declsOf allOk (some img))) "talos-client-cfg" =
      some Kind.TalosClientConfiguration ∧
    kindOf (graphOf (declsOf allOk (some img))) "cp-pub-ip-01" = some Kind.PublicIp ∧
    kindOf (graphOf (declsOf allOk (some img))) "cp-ni-01" = some Kind.NetworkInterface ∧
    kindOf (graphOf (declsOf allOk (some img))) "talos-cp-01" = some Kind.VirtualMachine := by
  refine ⟨rfl, rfl, rfl, rfl, rfl, ?_⟩
  rw [graph_allOk]
  decide


/-- C6: for every index i in 1..3 (here `i.val + 1`), virtual machine talos-cp-0i has
exactly one network interface, cp-ni-0i, whose single IP configuration is in subnet-0i and
carries public IP cp-pub-ip-0i; virtual machine talos-wkr-0i has exactly one network
interface, wkr-ni-0i, whose single IP configuration is in subnet-0i and carries no public
IP; and no interface, subnet or public IP of index i is wired to a machine of another
index. -/
theorem machines_wired_by_index (img : String) (i : Fin 3) :
    inputOf (declsOf allOk (some img)) (Sprintf "talos-cp-0%d" (i.val + 1))
        ["NetworkInterfaceIds"] =
      some (.arr [.out (Sprintf "cp-ni-0%d" (i.val + 1)) .ID]) ∧
    inputOf (declsOf allOk (some img)) (Sprintf "cp-ni-0%d" (i.val + 1))
        ["IpConfigurations"] =
      some (.arr [.obj [("Name", .sprintf "cp-ni-0%d" [.int (i.val + 1)]),
                        ("SubnetId", .out (Sprintf "subnet-0%d" (i.val + 1)) .ID),
                        ("PrivateIpAddressAllocation", .str "Dynamic"),
                        ("PublicIpAddressId",
                          .out (Sprintf "cp-pub-ip-0%d" (i.val + 1)) .ID)]]) ∧
    inputOf (declsOf allOk (some img)) (Sprintf "talos-wkr-0%d" (i.val + 1))
        ["NetworkInterfaceIds"] =
      some (.arr [.out (Sprintf "wkr-ni-0%d" (i.val + 1)) .ID]) ∧
    inputOf (declsOf allOk (some img)) (Sprintf "wkr-ni-0%d" (i.val + 1))
        ["IpConfigurations"] =
      some (.arr [.obj [("Name", .sprintf "wkr-ni-0%d" [.int (i.val + 1)]),
                        ("SubnetId", .out (Sprintf "subnet-0%d" (i.val + 1)) .ID),
                        ("PrivateIpAddressAllocation", .str "Dynamic")]]) ∧
    (∀ p ∈ [(Sprintf "talos-cp-0%d" (i.val + 1), Kind.VirtualMachine),
            (Sprintf "talos-wkr-0%d" (i.val + 1), Kind.VirtualMachine),
            (Sprintf "cp-ni-0%d" (i.val + 1), Kind.NetworkInterface),
            (Sprintf "wkr-ni-0%d" (i.val + 1), Kind.NetworkInterface),
            (Sprintf "subnet-0%d" (i.val + 1), Kind.Subnet),
            (Sprintf "cp-pub-ip-0%d" (i.val + 1), Kind.PublicIp)],
      kindOf (graphOf (declsOf allOk (some img))) p.1 = some p.2) ∧
    nicsOf (graphOf (declsOf allOk (some img))) (Sprintf "talos-cp-0%d" (i.val + 1)) =
      [Sprintf "cp-ni-0%d" (i.val + 1)] ∧
    nicsOf (graphOf (declsOf allOk (some img))) (Sprintf "talos-wkr-0%d" (i.val + 1)) =
      [Sprintf "wkr-ni-0%d" (i.val + 1)] ∧
    referencedBy (graphOf (declsOf allOk (some img))) (Sprintf "cp-ni-0%d" (i.val + 1)) =
      [Sprintf "subnet-0%d" (i.val + 1), Sprintf "cp-pub-ip-0%d" (i.val + 1), "talos-rg"] ∧
    referencedBy (graphOf (declsOf allOk (some img))) (Sprintf "wkr-ni-0%d" (i.val + 1)) =
      [Sprintf "subnet-0%d" (i.val + 1), "talos-rg"] ∧
    (∀ j : Fin 3,
      ∀ r ∈ [Sprintf "cp-ni-0%d" (i.val + 1), Sprintf "wkr-ni-0%d" (i.val + 1),
             Sprintf "subnet-0%d" (i.val + 1), Sprintf "cp-pub-ip-0%d" (i.val + 1)],
      ∀ m ∈ [Sprintf "talos-cp-0%d" (j.val + 1), Sprintf "talos-wkr-0%d" (j.val + 1)],
        wiredTo (graphOf (declsOf allOk (some img))) r m → i = j) := by
  refine ⟨?_, ?_, ?_, ?_, ?_⟩
  · fin_cases i <;> rfl
  · fin_cases i <;> rfl
  · fin_cases i <;> rfl
  · fin_cases i <;> rfl
  · rw [graph_allOk]
    revert i
    decide

/-- C7: every control plane virtual machine takes as CustomData the MachineConfig output of
talos-cp-machine-cfg and every worker virtual machine that of talos-wkr-machine-cfg, never
the other one; and the two machine configurations have equal inputs: the ClusterName output
of talos-client-cfg, the MachineSecrets output of talos-ms, the cluster endpoint formatted
from the IpAddress output of talos-lb-pub-ip, with docs and examples disabled. -/
theorem machine_configs_by_role (img : String) :
    (∀ i : Fin 3,
      inputOf (declsOf allOk (some img)) (Sprintf "talos-cp-0%d" (i.val + 1))
          ["OsProfile", "CustomData"] =
        some (.out "talos-cp-machine-cfg" .MachineConfig) ∧
      inputOf (declsOf allOk (some img)) (Sprintf "talos-wkr-0%d" (i.val + 1))
          ["OsProfile", "CustomData"] =
        some (.out "talos-wkr-machine-cfg" .MachineConfig)) ∧
    (∃ inputs : Value,
      inputs =
        .obj [("ClusterName", .out "talos-client-cfg" .ClusterName),
              ("ClusterEndpoint",
                .sprintf "https://%v:6443" [.out "talos-lb-pub-ip" .IpAddress]),
              ("MachineSecrets", .out "talos-ms" .MachineSecrets),
              ("DocsEnabled", .bool false),
              ("ExamplesEnabled", .bool false)] ∧
      inputOf (declsOf allOk (some img)) "talos-cp-machine-cfg" [] = some inputs ∧
      inputOf (declsOf allOk (some img)) "talos-wkr-machine-cfg" [] = some inputs) ∧
    (∀ i : Fin 3,
      "talos-wkr-machine-cfg" ∉
        referencedBy (graphOf (declsOf allOk (some img))) (Sprintf "talos-cp-0%d" (i.val + 1)) ∧
      "talos-cp-machine-cfg" ∉
        referencedBy (graphOf (declsOf allOk (some img)))
          (Sprintf "talos-wkr-0%d" (i.val + 1))) ∧
    kindOf (graphOf (declsOf allOk (some img))) "talos-cp-machine-cfg" =
      some Kind.TalosMachineConfigurationControlplane ∧
    kindOf (graphOf (declsOf allOk (some img))) "talos-wkr-machine-cfg" =
      some Kind.TalosMachineConfigurationWorker ∧
    kindOf (graphOf (declsOf allOk (some img))) "talos-client-cfg" =
      some Kind.TalosClientConfiguration ∧
    kindOf (graphOf (declsOf allOk (some img))) "talos-ms" = some Kind.TalosMachineSecrets ∧
    kindOf (graphOf (declsOf allOk (some img))) "talos-lb-pub-ip" = some Kind.PublicIp := by
  refine ⟨?_, ⟨_, rfl, rfl, rfl⟩, ?_⟩
  · intro i
    fin_cases i <;> exact ⟨rfl, rfl⟩
  · rw [graph_allOk]
    decide


/-! ## Declaration order and the reference graph -/

theorem graphOf_getElem? (ds : List Decl) (k : Nat) :
    (graphOf ds)[k]? = (ds[k]?).map fun d => ⟨d.name, d.kind, refs d.args⟩ := by
  simp [graphOf]

theorem graphOf_take_names (ds : List Decl) (k : Nat) :
    ((graphOf ds).take k).map Node.name = (ds.take k).map Decl.name := by
  rw [graphOf, ← List.map_take, List.map_map]
  rfl

/-- In the graph of a successful run every reference points to a strictly earlier
position. -/
theorem graph_refs_earlier :
    ∀ k < 38, ∀ n ∈ (graphOf (declsOf allOk (some "")))[k]?, ∀ r ∈ n.refs,
      r.res ∈ ((graphOf (declsOf allOk (some ""))).take k).map Node.name := by
  decide

/-- In the graph of a successful run every edge goes from a later to an earlier
position. -/
theorem graph_edges_backward :
    ∀ k < 38, ∀ j < 38, ∀ nk ∈ (graphOf (declsOf allOk (some "")))[k]?,
      ∀ nj ∈ (graphOf (declsOf allOk (some "")))[j]?,
        nj.name ∈ nk.refs.map Ref.res → j < k := by
  decide

theorem graph_length : (graphOf (declsOf allOk (some ""))).length = 38 := by
  decide

theorem lt_of_getElem?_allOk (img : String) (k : Nat) (d : Decl)
    (h : (declsOf allOk (some img))[k]? = some d) : k < 38 := by
  have hlen : (declsOf allOk (some img)).length = 38 := by
    have := congrArg List.length (graph_allOk img)
    rw [graph_length] at this
    simpa [graphOf] using this
  have := (List.getElem?_eq_some_iff.mp h).1
  omega

theorem node_of_getElem?_allOk (img : String) (k : Nat) (d : Decl)
    (h : (declsOf allOk (some img))[k]? = some d) :
    (⟨d.name, d.kind, refs d.args⟩ : Node) ∈ (graphOf (declsOf allOk (some "")))[k]? := by
  rw [← graph_allOk img, graphOf_getElem?, h]
  rfl

/-- C1: in the sequence of declarations of a successful run, every resource whose output
appears in the inputs of a declaration is declared strictly earlier; so every edge of the
reference graph goes from a later to an earlier position (the declaration order is a
topological order) and the graph has no cycle. -/
theorem references_declared_earlier (img : String) :
    (∀ k d, (declsOf allOk (some img))[k]? = some d → ∀ r ∈ refs d.args,
      r.res ∈ ((declsOf allOk (some img)).take k).map Decl.name) ∧
    (∀ k j, dependsOn (declsOf allOk (some img)) k j → j < k) ∧
    (∀ k, ¬ Relation.TransGen (dependsOn (declsOf allOk (some img))) k k) := by
  have hback : ∀ k j, dependsOn (declsOf allOk (some img)) k j → j < k := by
    rintro k j ⟨dk, dj, hk, hj, hmem⟩
    exact graph_edges_backward k (lt_of_getElem?_allOk img k dk hk) j
      (lt_of_getElem?_allOk img j dj hj) _ (node_of_getElem?_allOk img k dk hk) _
      (node_of_getElem?_allOk img j dj hj) hmem
  refine ⟨?_, hback, ?_⟩
  · intro k d hk r hr
    have := graph_refs_earlier k (lt_of_getElem?_allOk img k d hk) _
      (node_of_getElem?_allOk img k d hk) r hr
    rw [← graph_allOk img, graphOf_take_names] at this
    exact this
  · intro k h
    have hlt : ∀ a b, Relation.TransGen (dependsOn (declsOf allOk (some img))) a b → b < a := by
      intro a b hab
      induction hab with
      | single h => exact hback _ _ h
      | tail _ h ih => exact lt_trans (hback _ _ h) ih
    exact lt_irrefl k (hlt k k h)


/-- C3: the logical names passed to the declaration calls of a successful run are pairwise
distinct; there are 38 of them, and they are the names the specification lists. -/
theorem names_pairwise_distinct (img : String) :
    (namesOf allOk (some img)).Nodup ∧
    (namesOf allOk (some img)).length = 38 ∧
    (namesOf allOk (some img)).Perm specNames := by
  rw [names_allOk]
  refine ⟨by decide, by decide, by decide⟩


/-- C4: `main` is a flat, input-independent sequence of declarations.  For every two values
`a` and `b` of the configuration key imageId, the successful runs make 38 declaration calls
each, the same calls in the same order with the same kinds, names and inputs once the image
reference of the virtual machines is blanked out; the six virtual machines of each run have
that run's imageId as the Id of their StorageImageReference; and each run logs nothing,
exports the client configuration and returns nil. -/
theorem declarations_independent_of_image (a b : String) :
    (declsOf allOk (some a)).length = 38 ∧
    (declsOf allOk (some b)).length = 38 ∧
    (declsOf allOk (some a)).map Decl.withoutImage =
      (declsOf allOk (some b)).map Decl.withoutImage ∧
    (∀ img ∈ [a, b],
      ((graphOf (declsOf allOk (some img))).filter
          fun n => n.kind = Kind.VirtualMachine).map Node.name =
        ["talos-cp-01", "talos-cp-02", "talos-cp-03",
         "talos-wkr-01", "talos-wkr-02", "talos-wkr-03"] ∧
      (∀ i : Fin 3,
        inputOf (declsOf allOk (some img)) (Sprintf "talos-cp-0%d" (i.val + 1))
            ["StorageImageReference"] = some (.obj [("Id", .str img)]) ∧
        inputOf (declsOf allOk (some img)) (Sprintf "talos-wkr-0%d" (i.val + 1))
            ["StorageImageReference"] = some (.obj [("Id", .str img)])) ∧
      (run allOk (some img)).value = some none ∧
      (run allOk (some img)).world.logs = [] ∧
      (run allOk (some img)).world.exports =
        [("talosctlCfg", .out "talos-client-cfg" .TalosConfig)]) := by
  have hrun : ∀ img : String,
      ((graphOf (declsOf allOk (some img))).filter
          fun n => n.kind = Kind.VirtualMachine).map Node.name =
        ["talos-cp-01", "talos-cp-02", "talos-cp-03",
         "talos-wkr-01", "talos-wkr-02", "talos-wkr-03"] ∧
      (∀ i : Fin 3,
        inputOf (declsOf allOk (some img)) (Sprintf "talos-cp-0%d" (i.val + 1))
            ["StorageImageReference"] = some (.obj [("Id", .str img)]) ∧
        inputOf (declsOf allOk (some img)) (Sprintf "talos-wkr-0%d" (i.val + 1))
            ["StorageImageReference"] = some (.obj [("Id", .str img)])) ∧
      (run allOk (some img)).value = some none ∧
      (run allOk (some img)).world.logs = [] ∧
      (run allOk (some img)).world.exports =
        [("talosctlCfg", .out "talos-client-cfg" .TalosConfig)] := by
    intro img
    refine ⟨?_, ?_, rfl, rfl, rfl⟩
    · rw [graph_allOk]
      decide
    · intro i
      fin_cases i <;> exact ⟨rfl, rfl⟩
  have hlen : ∀ img : String, (declsOf allOk (some img)).length = 38 := by
    intro img
    have h := congrArg List.length (names_allOk img)
    simpa [namesOf] using h
  refine ⟨hlen a, hlen b, ?_, ?_⟩
  · rw [withoutImage_allOk a, withoutImage_allOk b]
  · intro img himg
    exact hrun img


/-! ## Failing declaration calls -/

/-- The configuration key is required: without it `cfg.Require` panics before any
declaration is made. -/
theorem missing_image_panics (eng : Engine) :
    (run eng none).value = none ∧ namesOf eng none = [] :=
  ⟨rfl, rfl⟩

/-- Log and continue, as far as it goes: under every engine whose constructors return a
pointer that is not `nil` (with or without an error), except possibly for the calls whose
pointer `main` discards, the run makes the same 38 declaration calls as a successful run
and returns nil. -/
theorem continues_without_nil_pointer (errs : String → Option String)
    (nilAt : String → Bool) (img : String) :
    (run (engineOf errs discarded nilAt) (some img)).value = some none ∧
    namesOf (engineOf errs discarded nilAt) (some img) = namesOf allOk (some img) := by
  refine ⟨rfl, ?_⟩
  have h : namesOf (engineOf errs discarded nilAt) (some img) = namesOf allOk (some "") :=
    of_decide_eq_true rfl
  rw [h, names_allOk, names_allOk]

/-- A declaration that takes an output of a resource whose constructor failed with a
pointer that is not `nil` proceeds with the zero value of that output. -/
theorem zero_output_after_failure (errs : String → Option String)
    (nilAt : String → Bool) (img : String) :
    inputOf (declsOf (engineOf errs discarded nilAt) (some img)) "talos-vnet"
        ["ResourceGroupName"] =
      some (if (errs "talos-rg").isNone then .out "talos-rg" .Name else .zero .Name) :=
  rfl

/-- Every line of the log is the line of one failed call: when only the resource group
fails, with a pointer that is not `nil`, the log holds its line and nothing else. -/
theorem log_after_failure (msg img : String) :
    (run (failAt "talos-rg" msg false) (some img)).world.logs =
      ["error creating resource group: " ++ msg] :=
  rfl

/-- C2 (the code at the failing input): when the constructor of the resource group returns
an error together with a `nil` pointer, `main` logs the error and then panics on
`talosRg.Name` while it builds the inputs of the virtual network: no later declaration is
made and the function does not return nil. -/
theorem nil_pointer_after_failed_declaration (msg img : String) :
    run (failAt "talos-rg" msg true) (some img) =
      Res.panic "invalid memory address or nil pointer dereference"
        ⟨[⟨Kind.ResourceGroup, "talos-rg", .obj [("Name", .str "talos-rg")]⟩],
         ["error creating resource group: " ++ msg], []⟩ ∧
    (run (failAt "talos-rg" msg true) (some img)).value = none ∧
    namesOf (failAt "talos-rg" msg true) (some img) = ["talos-rg"] :=
  ⟨rfl, rfl, rfl⟩

/-- The same happens for every call whose pointer `main` uses afterwards: when only that
call fails, with a `nil` pointer, the run panics and does not return nil. -/
theorem nil_pointer_panics (msg img : String) :
    ∀ name ∈ specNames.filter (fun n => decide (n ∉ discarded)),
      (run (failAt name msg true) (some img)).value = none := by
  intro name h
  have hL : specNames.filter (fun n => decide (n ∉ discarded)) =
      ["talos-rg", "talos-vnet", "talos-nsg", "talos-lb-pub-ip", "talos-lb",
       "talos-be-pool", "talos-ms", "talos-client-cfg", "talos-cp-machine-cfg",
       "talos-wkr-machine-cfg", "talos-cp-avail-set",
       "subnet-01", "cp-pub-ip-01", "cp-ni-01", "talos-cp-01", "wkr-ni-01", "talos-wkr-01",
       "subnet-02", "cp-pub-ip-02", "cp-ni-02", "talos-cp-02", "wkr-ni-02", "talos-wkr-02",
       "subnet-03", "cp-pub-ip-03", "cp-ni-03", "talos-cp-03", "wkr-ni-03",
       "talos-wkr-03"] := by
    decide
  rw [hL] at h
  have h2 := h
  simp only [List.mem_cons, List.mem_singleton, List.not_mem_nil, or_false] at h2
  rcases h2 with rfl | rfl | rfl | rfl | rfl | rfl | rfl | rfl | rfl | rfl | rfl | rfl | rfl |
    rfl | rfl | rfl | rfl | rfl | rfl | rfl | rfl | rfl | rfl | rfl | rfl | rfl | rfl | rfl | rfl
  all_goals rfl

end TalosAzure
